import Mathlib

/-!
Shallow embedding of the Magento2Api adapter of the falcon repository
(src/packages/falcon-client/src/middlewares/routes/ssrMiddleware.js,
the `Magento2Api` class).

Modelling conventions:
* JavaScript objects are Lean structures; properties that may be
  `undefined` are `Option` fields.
* JavaScript numbers are `Int`, strings are `String`.
* Truthiness is explicit: the empty string and the number 0 are falsy
  (`x || y` becomes `jsOrInt` / `jsOrStr`).
* `convertKeys` (inherited from `Magento2ApiBase`, outside this tree)
  only renames `snake_case` keys to `camelCase`; on these typed
  structures, whose fields already carry the canonical names, it is the
  identity and therefore does not appear.
* External library helpers (`htmlHelpers.stripHtml`, `JSON.parse`,
  `qs.stringify`) are parameters collected in `ExtLibs`.
* The backend is modelled as a stream `b : Nat -> String` of quote ids
  consumed by successive cart-creation posts, together with a counter of
  how many posts happened; `Except` models thrown errors.
-/

/-- Truthiness of a JavaScript string: the empty string is falsy. -/
def truthyStr (s : String) : Bool := !(s == "")

/-- Truthiness of a possibly-undefined JavaScript string. -/
def truthyOptStr : Option String → Bool
  | some s => truthyStr s
  | none => false

/-- JavaScript `a || b` for a possibly-undefined number `a`: the value of
`a` is used only when it is present and nonzero. -/
def jsOrInt : Option Int → Int → Int
  | some v, p => if v = 0 then p else v
  | none, p => p

/-- JavaScript `a || b` for a possibly-undefined string `a`. -/
def jsOrStr : Option String → String → String
  | some v, p => if v = "" then p else v
  | none, p => p

/-- Character-level anchored matching used by `startsWithStr`. -/
def charsStart : List Char → List Char → Bool
  | [], _ => true
  | _ :: _, [] => false
  | a :: as, b :: bs => a == b && charsStart as bs

/-- Does `s` begin with pattern `p`?  Models `message.match(/^pattern/)`
on error messages. -/
def startsWithStr (p s : String) : Bool := charsStart p.data s.data

/-- Element lookup `l[i]`, mirroring JavaScript array indexing. -/
def getIdx? : List α → Nat → Option α
  | [], _ => none
  | a :: _, 0 => some a
  | _ :: l, n + 1 => getIdx? l n

/-- Removal of one element, mirroring `array.splice(i, 1)`. -/
def eraseAt : List α → Nat → List α
  | [], _ => []
  | _ :: l, 0 => l
  | a :: l, n + 1 => a :: eraseAt l n

/-- Insertion of one element, mirroring `array.splice(n, 0, a)`: the
index is clamped to the length, so inserting past the end appends. -/
def spliceInsert (l : List α) (n : Nat) (a : α) : List α :=
  l.take n ++ a :: l.drop n

/-- The index of the first element satisfying `p`, mirroring
`array.findIndex(p)` (with `none` for -1). -/
def findIndexJs (p : α → Bool) : List α → Option Nat
  | [] => none
  | a :: l => if p a then some 0 else (findIndexJs p l).map (· + 1)

/-- Session entry `session.cart`, holding the Magento quote id. -/
structure CartRef where
  quoteId : String
deriving DecidableEq

/-- Session entry `session.customerToken`. -/
structure CustomerToken where
  token : String
  expirationTime : Int
deriving DecidableEq

/-- The server-side HTTP session as touched by the adapter: the cart,
the customer token and the currency, plus the further fields the class
actually uses (`orderId` and `orderQuoteId` written by `placeOrder`,
`paypalExpressHash` read by `lastOrder`, and the store-configuration
fields exposed by the type resolvers). -/
structure Session where
  cart : Option CartRef
  customerToken : Option CustomerToken
  currency : Option String
  orderId : Option String
  orderQuoteId : Option String
  paypalExpressHash : Option String
  baseCurrency : Option String
  timezone : Option String
  weightUnit : Option String
deriving DecidableEq

/-- Models `removeCartData`: `delete this.session.cart`.  The
accompanying `this.context.session.save()` is an external I/O effect
with no further change to the session fields. -/
def removeCartData (s : Session) : Session := { s with cart := none }

/-- The token string of the session, `""` when no customer token is
stored (the class destructures `customerToken: { token } = {}`). -/
def sessionTokenStr (s : Session) : String :=
  match s.customerToken with
  | some ct => ct.token
  | none => ""

/-- The quote id of the session cart, `""` when absent; mirrors the
truthiness test `this.session.cart && this.session.cart.quoteId`. -/
def sessionQuoteId (s : Session) : String :=
  match s.cart with
  | some c => c.quoteId
  | none => ""

/-- A rejected REST call as observed in a handler's catch block.  Flag
fields that are `undefined` in JavaScript are `false` / `none` here. -/
structure MagentoError where
  statusCode : Nat
  message : String
  code : Option String
  userMessage : Bool
  noLogging : Bool
deriving DecidableEq

/-- Catch block of `addToCart`: on a 400 response, a message starting
with "We don't have as many" is translated to STOCK_TOO_LOW and marked
user-visible; on any other status, a message starting with
"No such entity with cartId" removes the session cart and is translated
to INVALID_CART; the error is rethrown in all cases. -/
def addToCartCatch (e : MagentoError) (s : Session) : MagentoError × Session :=
  if e.statusCode = 400 then
    if startsWithStr "We don't have as many" e.message then
      ({ e with code := some "STOCK_TOO_LOW", userMessage := true, noLogging := true }, s)
    else (e, s)
  else if startsWithStr "No such entity with cartId" e.message then
    ({ e with code := some "INVALID_CART" }, removeCartData s)
  else (e, s)

/-- Catch block of `signIn`: a 401 is marked user-visible. -/
def signInCatch (e : MagentoError) : MagentoError :=
  if e.statusCode = 401 then { e with userMessage := true, noLogging := true } else e

/-- Catch block of `signUp`: a 400 is marked user-visible. -/
def signUpCatch (e : MagentoError) : MagentoError :=
  if e.statusCode = 400 then { e with userMessage := true, noLogging := true } else e

/-- Catch block of `placeOrder`: a 400 is marked user-visible. -/
def placeOrderCatch (e : MagentoError) : MagentoError :=
  if e.statusCode = 400 then { e with userMessage := true, noLogging := true } else e

/-- Catch block of `applyCoupon`: a 404 is marked user-visible. -/
def applyCouponCatch (e : MagentoError) : MagentoError :=
  if e.statusCode = 404 then { e with userMessage := true, noLogging := true } else e

/-- Catch block of `changeCustomerPassword`: a 401 or 503 is marked
user-visible and its `code` property is deleted. -/
def changeCustomerPasswordCatch (e : MagentoError) : MagentoError :=
  if e.statusCode = 401 || e.statusCode = 503 then
    { e with userMessage := true, code := none, noLogging := true }
  else e

/-- Catch block of `validatePasswordToken`: every error is marked
user-visible, without any status or message test. -/
def validatePasswordTokenCatch (e : MagentoError) : MagentoError :=
  { e with userMessage := true, noLogging := true }

/-- Result of `ensureCart`: the updated session, the total number of
cart-creation posts made so far (posts consume successive entries of the
backend stream), the returned cart, and the path posted to (`none` when
the cached cart was returned without a backend call). -/
structure EnsureCartResult where
  session : Session
  counter : Nat
  cart : CartRef
  postedPath : Option String
deriving DecidableEq

/-- The cart-creation arm of `ensureCart`: post to `/carts/mine` when a
customer token is present, to `/guest-carts` otherwise, and store
`{ quoteId }` in the session. -/
def ensureCartCreate (b : Nat → String) (s : Session) (n : Nat) (token : String) :
    EnsureCartResult :=
  let path := if truthyStr token then "/carts/mine" else "/guest-carts"
  let q := b n
  ⟨{ s with cart := some ⟨q⟩ }, n + 1, ⟨q⟩, some path⟩

/-- Models `ensureCart`: return the session cart when it holds a truthy
quote id, otherwise create one. -/
def ensureCart (b : Nat → String) (s : Session) (n : Nat) : EnsureCartResult :=
  let token := sessionTokenStr s
  match s.cart with
  | some c =>
    if truthyStr c.quoteId then ⟨s, n, c, none⟩
    else ensureCartCreate b s n token
  | none => ensureCartCreate b s n token

/-- Session effect of a successful `signIn`: store the customer token,
drop the guest cart, and recreate the cart through `ensureCart`. -/
def signInSession (s : Session) (token : String) (expirationTime : Int)
    (b : Nat → String) (n : Nat) : Session × Nat :=
  let s1 := { s with customerToken := some ⟨token, expirationTime⟩ }
  let s2 := { s1 with cart := none }
  let r := ensureCart b s2 n
  (r.session, r.counter)

/-- Session effect of `signOut`: delete the customer token and the
cart. -/
def signOutSession (s : Session) : Session :=
  { s with customerToken := none, cart := none }

/-- Session effect of `placeOrder` after the backend call succeeded with
order id `orderId`: the order id is stored first, a falsy order id then
raises, and finally the quote id of the session cart is stored into
`orderQuoteId` (raising when no cart is in the session).  An
`Except.error` carries the session as already mutated at the throw. -/
def placeOrderSession (s : Session) (orderId : Option String) : Except Session Session :=
  let s1 := { s with orderId := orderId }
  if truthyOptStr s1.orderId then
    match s1.cart with
    | some c => .ok { s1 with orderQuoteId := some c.quoteId }
    | none => .error s1
  else .error s1

/-- The session carried by either outcome of a session transformer. -/
def sessionOf : Except Session Session → Session
  | .ok s => s
  | .error s => s

/-- The session fields that no embedded request handler ever writes. -/
def frameOK (s t : Session) : Prop :=
  t.paypalExpressHash = s.paypalExpressHash ∧ t.baseCurrency = s.baseCurrency ∧
    t.timezone = s.timezone ∧ t.weightUnit = s.weightUnit

/-- One entry of a Magento `custom_attributes` array. -/
structure AttrRecord where
  attributeCode : String
  value : String
deriving DecidableEq

/-- The possible shapes of a `custom_attributes` property: an array of
records, a flat object (key-value pairs), or some other scalar value. -/
inductive CustomAttrsVal where
  | arrVal : List AttrRecord → CustomAttrsVal
  | objVal : List (String × String) → CustomAttrsVal
  | scalarVal : String → CustomAttrsVal
deriving DecidableEq

/-- A backend response datum as far as `convertAttributesSet` sees it: a
possibly-absent `custom_attributes` property next to the remaining
fields (summarised as `rest`). -/
structure RespData where
  customAttributes : Option CustomAttrsVal
  rest : String
deriving DecidableEq

/-- JavaScript object property assignment `obj[k] = v` on a flat object
represented as key-value pairs with unique keys: overwrite in place when
the key exists, append otherwise. -/
def setKey : List (String × String) → String → String → List (String × String)
  | [], k, v => [(k, v)]
  | (k', v') :: m, k, v => if k' = k then (k, v) :: m else (k', v') :: setKey m k v

/-- Property lookup `obj[k]` on a flat object. -/
def lookupKey : List (String × String) → String → Option String
  | [], _ => none
  | (k', v') :: m, k => if k' = k then some v' else lookupKey m k

/-- The `attributesSet` accumulation of `convertAttributesSet`:
`attributes.forEach(a => { attributesSet[a.attribute_code] = a.value })`
starting from the empty object. -/
def buildAttributesSet (l : List AttrRecord) : List (String × String) :=
  l.foldl (fun m a => setKey m a.attributeCode a.value) []

/-- Models `convertAttributesSet`: destructure with default
`custom_attributes = []`, and when the result is an array, replace the
property with the flat key-value object. -/
def convertAttributesSet (d : RespData) : RespData :=
  let attributes := match d.customAttributes with
    | none => CustomAttrsVal.arrVal []
    | some v => v
  match attributes with
  | .arrVal l => { d with customAttributes := some (.objVal (buildAttributesSet l)) }
  | _ => d

/-- The value of the last record of `l` carrying attribute code `c`
(later entries of the array overwrite earlier ones). -/
def lastAttrValue : List AttrRecord → String → Option String
  | [], _ => none
  | a :: l, c =>
    match lastAttrValue l c with
    | some v => some v
    | none => if a.attributeCode = c then some a.value else none

/-- The shapes `urlQuery` can carry on a raw breadcrumb: an array (of
JSON strings, since Magento 2.2) or an already-parsed filters object. -/
inductive JsQuery where
  | arrQ : List String → JsQuery
  | objQ : String → JsQuery
deriving DecidableEq

/-- A breadcrumb entry as handled by `convertBreadcrumbs`. -/
structure Breadcrumb where
  name : String
  urlPath : Option String
  urlKey : Option String
  urlQuery : Option JsQuery
deriving DecidableEq

/-- The external helpers used by the conversion functions:
`htmlHelpers.stripHtml` from falcon-server-env, `JSON.parse` and
`qs.stringify` (both reduced to `String`-valued summaries). -/
structure ExtLibs where
  stripHtml : String → String
  jsonParse : String → String
  qsStringify : JsQuery → String

/-- Models `convertPathToUrl`: `path ? `/${path}.html` : path`, so the
empty string and `undefined` pass through unchanged. -/
def convertPathToUrl : Option String → Option String
  | some p => if p = "" then some "" else some ("/" ++ p ++ ".html")
  | none => none

/-- One step of `convertBreadcrumbs`: strip the name, convert the path,
set `urlQuery` to `null`, and then the two branches that would parse
`urlQuery` and append it to `urlPath` - both guarded by the truthiness
of the `urlQuery` that was just nulled. -/
def convertBreadcrumbItem (lib : ExtLibs) (b0 : Breadcrumb) : Breadcrumb :=
  let b := { b0 with name := lib.stripHtml b0.name }
  let b := { b with urlPath := convertPathToUrl b.urlPath }
  let b := { b with urlKey := b.urlKey }
  let b := { b with urlQuery := none }
  let b :=
    match b.urlQuery with
    | some (.arrQ l) => { b with urlQuery := some (.objQ (lib.jsonParse (l.headD ""))) }
    | _ => b
  match b.urlQuery with
  | some q => { b with urlPath := some ((b.urlPath.getD "") ++ "?" ++ lib.qsStringify q) }
  | none => b

/-- Models `convertBreadcrumbs`. -/
def convertBreadcrumbs (lib : ExtLibs) (bs : List Breadcrumb) : List Breadcrumb :=
  bs.map (convertBreadcrumbItem lib)

/-- One entry of `totalSegments` in a totals response. -/
structure TotalSegment where
  code : String
  title : String
  value : Int
deriving DecidableEq

/-- A totals response as far as `convertTotals` sees it: the
possibly-absent `totalSegments` array. -/
structure TotalsResp where
  totalSegments : Option (List TotalSegment)
deriving DecidableEq

/-- Models `convertTotals`: find the first segment with code
'discount', splice it out and splice it back in at index 1. -/
def convertTotals (t : TotalsResp) : TotalsResp :=
  match t.totalSegments with
  | none => t
  | some segs =>
    match findIndexJs (fun seg => seg.code == "discount") segs with
    | none => t
    | some i =>
      match getIdx? segs i with
      | none => t
      | some d => { t with totalSegments := some (spliceInsert (eraseAt segs i) 1 d) }

/-- A `stock_item` extension attribute (picked fields). -/
structure StockItem where
  qty : Int
  isInStock : Bool
deriving DecidableEq

/-- The extension attributes of a product response that
`convertProductData` destructures (`mediaGallerySizes`,
`configurableProductOptions` and `bundleProductOptions`, which are only
copied verbatim, are omitted). -/
structure ProductExtAttrs where
  catalogDisplayPrice : Option Int
  breadcrumbs : Option (List Breadcrumb)
  thumbnailUrl : Option String
  stockItem : Option StockItem
  minPrice : Option Int
  maxPrice : Option Int
deriving DecidableEq

/-- Emptiness of the extension-attributes object, as tested by
`lodash.isEmpty`. -/
def ProductExtAttrs.isEmptyAttrs (ea : ProductExtAttrs) : Bool :=
  ea.catalogDisplayPrice.isNone && ea.breadcrumbs.isNone && ea.thumbnailUrl.isNone &&
    ea.stockItem.isNone && ea.minPrice.isNone && ea.maxPrice.isNone

/-- The custom attributes of a product response (already flattened by
`convertAttributesSet` and renamed by `convertKeys`). -/
structure ProductCustomAttrs where
  urlKey : Option String
  priceType : Option String
  description : Option String
  metaTitle : Option String
  metaDescription : Option String
  metaKeyword : Option String
deriving DecidableEq

/-- Emptiness of the custom-attributes object, as tested by
`lodash.isEmpty`. -/
def ProductCustomAttrs.isEmptyAttrs (ca : ProductCustomAttrs) : Bool :=
  ca.urlKey.isNone && ca.priceType.isNone && ca.description.isNone &&
    ca.metaTitle.isNone && ca.metaDescription.isNone && ca.metaKeyword.isNone

/-- The `seo` block assembled from custom attributes. -/
structure Seo where
  title : Option String
  description : Option String
  keywords : Option String
deriving DecidableEq

/-- A product datum across `convertProductData`. -/
structure ProductData where
  name : String
  price : Int
  priceAmount : Option Int
  currency : Option String
  urlPath : Option String
  priceType : Option String
  minPrice : Option Int
  maxPrice : Option Int
  breadcrumbs : Option (List Breadcrumb)
  thumbnail : Option String
  stock : Option StockItem
  description : Option String
  seo : Option Seo
  extensionAttributes : ProductExtAttrs
  customAttributes : ProductCustomAttrs
deriving DecidableEq

/-- Models `convertProductData`: price bookkeeping (with the
`catalogPrice || data.price` fallback and the zero-price repair from
`minPrice`), breadcrumb conversion, thumbnail and stock copying, and the
seo block from custom attributes. -/
def convertProductData (lib : ExtLibs) (currency : Option String) (d0 : ProductData) :
    ProductData :=
  let ea := d0.extensionAttributes
  let ca := d0.customAttributes
  let price := jsOrInt ea.catalogDisplayPrice d0.price
  let d := { d0 with
    urlPath := convertPathToUrl ca.urlKey
    priceAmount := some d0.price
    currency := currency
    price := price
    name := lib.stripHtml d0.name
    priceType := some (jsOrStr ca.priceType "1") }
  let d :=
    if ea.isEmptyAttrs then d
    else
      let d := match ea.breadcrumbs with
        | some bs => { d with breadcrumbs := some (convertBreadcrumbs lib bs) }
        | none => d
      let d := { d with thumbnail := ea.thumbnailUrl }
      let d := match ea.minPrice with
        | some m =>
          if m = 0 then d
          else { d with minPrice := some m,
                        extensionAttributes := { d.extensionAttributes with minPrice := none } }
        | none => d
      let d := match ea.maxPrice with
        | some m =>
          if m = 0 then d
          else { d with maxPrice := some m,
                        extensionAttributes := { d.extensionAttributes with maxPrice := none } }
        | none => d
      let d := match d.minPrice with
        | some m => if m ≠ 0 ∧ price = 0 then { d with price := m } else d
        | none => d
      let d := if d.minPrice = d.maxPrice then { d with minPrice := none, maxPrice := none }
        else d
      match ea.stockItem with
      | some st => { d with stock := some st }
      | none => d
  if ca.isEmptyAttrs then d
  else
    { d with description := ca.description
             seo := some { title := ca.metaTitle, description := ca.metaDescription,
                           keywords := ca.metaKeyword } }

/-- The effective price exactly as claim C2 words it: the
catalogDisplayPrice extension attribute when present, `data.price`
otherwise.  The code instead computes `catalogPrice || data.price`,
which also falls back when catalogDisplayPrice is present but zero. -/
def specEffectivePrice (d : ProductData) : Int :=
  match d.extensionAttributes.catalogDisplayPrice with
  | some v => v
  | none => d.price

/-- An extension-attributes block of a cart-totals item:
`convertCartData` reads `urlKey` and `availableQty` from it. -/
structure CartItemExtAttrs where
  urlKey : String
  availableQty : Int
deriving DecidableEq

/-- An item of the cart (quote) endpoint response. -/
structure QuoteItem where
  itemId : Nat
  name : String
  qty : Int
deriving DecidableEq

/-- An item of the cart-totals endpoint response. -/
structure TotalsItem where
  itemId : Nat
  price : Int
  options : Option String
  extensionAttributes : Option CartItemExtAttrs
deriving DecidableEq

/-- A merged cart item: the spread
`{ ...item, ...totalsDataItem, ...extensionAttributes }`. -/
structure MergedCartItem where
  itemId : Nat
  name : String
  qty : Int
  price : Int
  itemOptions : Option String
  availableQty : Int
  urlKey : String
  link : String
deriving DecidableEq

/-- The cart (quote) endpoint response, after `convertKeys`. -/
structure QuoteData where
  isActive : Bool
  isVirtual : Bool
  itemsQty : Nat
  items : List QuoteItem
deriving DecidableEq

/-- The cart-totals endpoint response, after `convertKeys`. -/
structure TotalsData where
  quoteCurrencyCode : Option String
  couponCode : Option String
  totalSegments : List TotalSegment
  items : List TotalsItem
deriving DecidableEq

/-- The merged cart returned by the `cart` resolver. -/
structure Cart where
  active : Bool
  virtual : Bool
  itemsQty : Nat
  quoteCurrency : Option String
  couponCode : Option String
  items : List MergedCartItem
  totals : List TotalSegment
deriving DecidableEq

/-- The `emptyCart` literal of the `cart` resolver (fields absent from
the literal are `undefined` in JavaScript, that is `false` / `none`). -/
def emptyCart : Cart :=
  { active := false, virtual := false, itemsQty := 0, quoteCurrency := none,
    couponCode := none, items := [], totals := [] }

/-- Merging of one quote item with its totals counterpart inside
`convertCartData`.  `none` models the TypeError thrown when
`totalsData.items.find(...)` returns `undefined`, or when the found item
carries no `extensionAttributes` (whose `availableQty` is then read). -/
def mergeCartItem (lib : ExtLibs) (t : TotalsData) (item : QuoteItem) :
    Option MergedCartItem :=
  match t.items.find? (fun x => x.itemId == item.itemId) with
  | none => none
  | some ti =>
    match ti.extensionAttributes with
    | none => none
    | some ea =>
      some { itemId := item.itemId, name := item.name, qty := item.qty, price := ti.price,
             itemOptions := ti.options.map lib.jsonParse,
             availableQty := ea.availableQty, urlKey := ea.urlKey,
             link := "/" ++ ea.urlKey ++ ".html" }

/-- Models `convertCartData`: merge the quote and totals responses;
`none` models an exception escaping from the merge. -/
def convertCartData (lib : ExtLibs) (q : QuoteData) (t : TotalsData) : Option Cart :=
  match q.items.mapM (mergeCartItem lib t) with
  | none => none
  | some items =>
    some { active := q.isActive, virtual := q.isVirtual, itemsQty := q.itemsQty,
           quoteCurrency := t.quoteCurrencyCode, couponCode := t.couponCode,
           items := items, totals := t.totalSegments }

/-- Models the `cart` resolver.  The joint outcome of the two concurrent
fetches (cart and cart totals) is `fetch`: `Except.error` models either
request rejecting.  Without a truthy quote id the empty cart is returned
and `fetch` is never consulted; any failure inside the try block removes
the session cart and returns the empty cart. -/
def cartOp (lib : ExtLibs) (s : Session) (fetch : Except Unit (QuoteData × TotalsData)) :
    Session × Cart :=
  if truthyStr (sessionQuoteId s) then
    match fetch with
    | .error _ => (removeCartData s, emptyCart)
    | .ok (q, t) =>
      match convertCartData lib q t with
      | some c => (s, c)
      | none => (removeCartData s, emptyCart)
  else (s, emptyCart)

/-- External helpers instantiated with inert functions, for concrete
evaluations. -/
def idLibs : ExtLibs :=
  { stripHtml := fun s => s, jsonParse := fun s => s, qsStringify := fun _ => "" }

/-- A session with no data at all. -/
def baseSession : Session :=
  { cart := none, customerToken := none, currency := none, orderId := none,
    orderQuoteId := none, paypalExpressHash := none, baseCurrency := none,
    timezone := none, weightUnit := none }

/-- A guest session holding cart quote id "Q1". -/
def sessionWithCartQ1 : Session :=
  { baseSession with cart := some ⟨"Q1"⟩, currency := some "EUR" }

/-- A backend stream whose first created quote id is falsy. -/
def badStream : Nat → String :=
  fun k => if k = 0 then "" else "QX"

/-- The concrete product datum of the C2 counterexample: a present but
zero catalogDisplayPrice, a plain price of 5 and a minPrice of 3. -/
def productC2 : ProductData :=
  { name := "widget", price := 5, priceAmount := none, currency := none,
    urlPath := none, priceType := none, minPrice := none, maxPrice := none,
    breadcrumbs := none, thumbnail := none, stock := none, description := none,
    seo := none,
    extensionAttributes :=
      { catalogDisplayPrice := some 0, breadcrumbs := none, thumbnailUrl := none,
        stockItem := none, minPrice := some 3, maxPrice := none },
    customAttributes :=
      { urlKey := none, priceType := none, description := none,
        metaTitle := none, metaDescription := none, metaKeyword := none } }

/-- Concrete total segments for the C3 witness. -/
def segSubtotal : TotalSegment := ⟨"subtotal", "Subtotal", 100⟩

/-- Concrete discount segment for the C3 witness. -/
def segDiscount : TotalSegment := ⟨"discount", "Discount", -5⟩

/-- Concrete grand-total segment for the C3 witness. -/
def segGrand : TotalSegment := ⟨"grand_total", "Grand Total", 95⟩

/-- The C2 witness product: zero price, no catalog price, minPrice 3. -/
def productMinRepair : ProductData :=
  { productC2 with
    price := 0
    extensionAttributes :=
      { catalogDisplayPrice := none, breadcrumbs := none, thumbnailUrl := none,
        stockItem := none, minPrice := some 3, maxPrice := none } }

/-- A concrete one-item quote response for the C8 witness. -/
def qOne : QuoteData :=
  { isActive := true, isVirtual := false, itemsQty := 1, items := [⟨1, "shirt", 1⟩] }

/-- A totals response with no items, making the merge of `qOne` throw. -/
def tEmpty : TotalsData :=
  { quoteCurrencyCode := some "EUR", couponCode := none, totalSegments := [], items := [] }

/-- A totals response matching `qOne`. -/
def tOne : TotalsData :=
  { quoteCurrencyCode := some "EUR", couponCode := none, totalSegments := [segSubtotal],
    items := [⟨1, 50, none, some ⟨"shirt", 10⟩⟩] }

/-- The merged cart produced from `qOne` and `tOne`. -/
def cartOne : Cart :=
  { active := true, virtual := false, itemsQty := 1, quoteCurrency := some "EUR",
    couponCode := none, items := [⟨1, "shirt", 1, 50, none, 10, "shirt", "/shirt.html"⟩],
    totals := [segSubtotal] }

/-- C9: in `convertBreadcrumbs` the two `urlQuery` branches are dead
code: `urlQuery` is unconditionally set to `null` before them, so every
returned breadcrumb has `urlQuery = none` and its `urlPath` is exactly
`convertPathToUrl` of the incoming path, with no query string
appended. -/
theorem convertBreadcrumbs_urlQuery_dead (lib : ExtLibs) (bs : List Breadcrumb) :
    convertBreadcrumbs lib bs =
      bs.map (fun b =>
        { name := lib.stripHtml b.name, urlPath := convertPathToUrl b.urlPath,
          urlKey := b.urlKey, urlQuery := none }) := rfl

/-- C1 counterexample: `signIn` marks a 401 user-visible whatever the
message says - here a message matching no English error pattern - so
for status 401 the decision is not made by pattern-matching the
message. -/
theorem signIn_userMessage_counterexample :
    (signInCatch { statusCode := 401, message := "zzz", code := none,
                   userMessage := false, noLogging := false }).userMessage = true ∧
    startsWithStr "We don't have as many" "zzz" = false ∧
    startsWithStr "No such entity with cartId" "zzz" = false := by decide

/-- C1 (amended): among the status codes 400, 401, 404 and 503, only
`addToCart`'s 400 branch decides user visibility by matching the message
against an English pattern; `signIn` (401), `signUp` (400), `placeOrder`
(400), `applyCoupon` (404) and `changeCustomerPassword` (401/503) decide
it from the status code alone, and `validatePasswordToken` marks every
error user-visible. -/
theorem userMessage_decision_spec (e : MagentoError) (h : e.userMessage = false) :
    ((signInCatch e).userMessage = (e.statusCode == 401)) ∧
    ((signUpCatch e).userMessage = (e.statusCode == 400)) ∧
    ((placeOrderCatch e).userMessage = (e.statusCode == 400)) ∧
    ((applyCouponCatch e).userMessage = (e.statusCode == 404)) ∧
    ((changeCustomerPasswordCatch e).userMessage =
      (e.statusCode == 401 || e.statusCode == 503)) ∧
    ((validatePasswordTokenCatch e).userMessage = true) ∧
    (∀ s, (addToCartCatch e s).1.userMessage =
      (e.statusCode == 400 && startsWithStr "We don't have as many" e.message)) := by
  refine ⟨?_, ?_, ?_, ?_, ?_, ?_, ?_⟩
  · by_cases h1 : e.statusCode = 401 <;> simp [signInCatch, h1, h]
  · by_cases h1 : e.statusCode = 400 <;> simp [signUpCatch, h1, h]
  · by_cases h1 : e.statusCode = 400 <;> simp [placeOrderCatch, h1, h]
  · by_cases h1 : e.statusCode = 404 <;> simp [applyCouponCatch, h1, h]
  · by_cases h1 : e.statusCode = 401 <;> by_cases h2 : e.statusCode = 503 <;>
      simp [changeCustomerPasswordCatch, h1, h2, h]
  · simp [validatePasswordTokenCatch]
  · intro s
    by_cases h1 : e.statusCode = 400 <;>
      cases h2 : startsWithStr "We don't have as many" e.message <;>
      cases h3 : startsWithStr "No such entity with cartId" e.message <;>
      simp [addToCartCatch, h1, h2, h3, h]

/-- Witness for `userMessage_decision_spec` at a concrete 401 error. -/
theorem userMessage_decision_spec_witness :
    (signInCatch { statusCode := 401, message := "The password is wrong", code := none,
                   userMessage := false, noLogging := false }).userMessage =
      ((401 : Nat) == 401) :=
  (userMessage_decision_spec
    { statusCode := 401, message := "The password is wrong", code := none,
      userMessage := false, noLogging := false } rfl).1

/-- C4 counterexample: when the backend fails with status 400 and a
message beginning "No such entity with cartId", `addToCart` neither
translates the error to INVALID_CART nor removes the session cart - the
INVALID_CART branch is an `else` of the 400 test. -/
theorem addToCart_invalidCart_counterexample :
    startsWithStr "No such entity with cartId" "No such entity with cartId = 21" = true ∧
    addToCartCatch
        { statusCode := 400, message := "No such entity with cartId = 21",
          code := none, userMessage := false, noLogging := false } sessionWithCartQ1 =
      ({ statusCode := 400, message := "No such entity with cartId = 21",
         code := none, userMessage := false, noLogging := false }, sessionWithCartQ1) := by
  decide

/-- C4 (amended): on a 400 with a message beginning "We don't have as
many" the error is rethrown as STOCK_TOO_LOW, user-visible and not
logged; on a status other than 400 with a message beginning "No such
entity with cartId" the session cart is removed and the error is
rethrown as INVALID_CART; a 400 whose message does not match the stock
pattern is rethrown untranslated, with the session kept. -/
theorem addToCartCatch_spec (e : MagentoError) (s : Session) :
    (e.statusCode = 400 → startsWithStr "We don't have as many" e.message = true →
      addToCartCatch e s =
        ({ e with code := some "STOCK_TOO_LOW", userMessage := true, noLogging := true }, s)) ∧
    (e.statusCode ≠ 400 → startsWithStr "No such entity with cartId" e.message = true →
      addToCartCatch e s = ({ e with code := some "INVALID_CART" }, removeCartData s)) ∧
    (e.statusCode = 400 → startsWithStr "We don't have as many" e.message = false →
      addToCartCatch e s = (e, s)) := by
  refine ⟨?_, ?_, ?_⟩
  · intro h1 h2; simp [addToCartCatch, h1, h2]
  · intro h1 h2; simp [addToCartCatch, h1, h2]
  · intro h1 h2; simp [addToCartCatch, h1, h2]

/-- Witness for `addToCartCatch_spec`: the stock-error branch and the
invalid-cart branch at concrete errors. -/
theorem addToCartCatch_spec_witness :
    addToCartCatch
        { statusCode := 400, message := "We don't have as many widgets in stock",
          code := none, userMessage := false, noLogging := false } sessionWithCartQ1 =
      ({ statusCode := 400, message := "We don't have as many widgets in stock",
         code := some "STOCK_TOO_LOW", userMessage := true, noLogging := true },
       sessionWithCartQ1) ∧
    addToCartCatch
        { statusCode := 404, message := "No such entity with cartId = 21",
          code := none, userMessage := false, noLogging := false } sessionWithCartQ1 =
      ({ statusCode := 404, message := "No such entity with cartId = 21",
         code := some "INVALID_CART", userMessage := false, noLogging := false },
       removeCartData sessionWithCartQ1) :=
  ⟨(addToCartCatch_spec _ sessionWithCartQ1).1 rfl (by decide),
   (addToCartCatch_spec _ sessionWithCartQ1).2.1 (by decide) (by decide)⟩

/-- C5 counterexample: `placeOrder` writes the session fields `orderId`
and `orderQuoteId`, which are none of cart quote id, customer token or
currency. -/
theorem placeOrder_session_fields_counterexample :
    sessionWithCartQ1.orderId = none ∧ sessionWithCartQ1.orderQuoteId = none ∧
    (sessionOf (placeOrderSession sessionWithCartQ1 (some "000000154"))).orderId =
      some "000000154" ∧
    (sessionOf (placeOrderSession sessionWithCartQ1 (some "000000154"))).orderQuoteId =
      some "Q1" := by decide

/-- C5 (amended): the embedded request handlers read and write only the
session fields cart, customerToken, currency, orderId and orderQuoteId
(the last two written by `placeOrder`; `lastOrder` additionally reads
orderId and paypalExpressHash): none of them ever changes
`paypalExpressHash`, `baseCurrency`, `timezone` or `weightUnit`. -/
theorem handlers_session_frame :
    (∀ b s n, frameOK s (ensureCart b s n).session) ∧
    (∀ s tok exp b n, frameOK s (signInSession s tok exp b n).1) ∧
    (∀ s, frameOK s (signOutSession s)) ∧
    (∀ s, frameOK s (removeCartData s)) ∧
    (∀ lib s f, frameOK s (cartOp lib s f).1) ∧
    (∀ s oid, frameOK s (sessionOf (placeOrderSession s oid))) ∧
    (∀ e s, frameOK s (addToCartCatch e s).2) := by
  have hEnsure : ∀ b s n, frameOK s (ensureCart b s n).session := by
    intro b s n
    unfold ensureCart ensureCartCreate frameOK
    cases s.cart with
    | none => simp
    | some c => by_cases h : truthyStr c.quoteId = true <;> simp [h]
  refine ⟨hEnsure, ?_, ?_, ?_, ?_, ?_, ?_⟩
  · intro s tok exp b n
    have h := hEnsure b { s with customerToken := some ⟨tok, exp⟩, cart := none } n
    simpa [signInSession, frameOK] using h
  · intro s; simp [signOutSession, frameOK]
  · intro s; simp [removeCartData, frameOK]
  · intro lib s f
    unfold cartOp frameOK
    by_cases h : truthyStr (sessionQuoteId s) = true <;> simp [h]
    cases f with
    | error u => simp [removeCartData]
    | ok qt =>
      obtain ⟨q, t⟩ := qt
      cases hc : convertCartData lib q t <;> simp [hc, removeCartData]
  · intro s oid
    unfold placeOrderSession sessionOf frameOK
    by_cases h : truthyOptStr ({ s with orderId := oid } : Session).orderId = true <;>
      simp [h]
    cases hc : ({ s with orderId := oid } : Session).cart <;> simp
  · intro e s
    unfold addToCartCatch frameOK
    by_cases h1 : e.statusCode = 400 <;>
      cases h2 : startsWithStr "We don't have as many" e.message <;>
      cases h3 : startsWithStr "No such entity with cartId" e.message <;>
      simp [h1, h2, h3, removeCartData]

/-- Property lookup after a property assignment: the assigned key now
maps to the assigned value, every other key is unaffected. -/
theorem lookupKey_setKey (m : List (String × String)) (k v k' : String) :
    lookupKey (setKey m k v) k' = if k' = k then some v else lookupKey m k' := by
  induction m with
  | nil =>
    by_cases h : k' = k
    · subst h; simp [setKey, lookupKey]
    · simp [setKey, lookupKey, h, Ne.symm h]
  | cons a m ih =>
    obtain ⟨ka, va⟩ := a
    by_cases h1 : ka = k
    · subst h1
      by_cases h2 : k' = ka
      · subst h2; simp [setKey, lookupKey]
      · have h3 : ¬ka = k' := fun hh => h2 hh.symm
        simp [setKey, lookupKey, h2, h3]
    · by_cases h2 : ka = k'
      · subst h2
        simp [setKey, lookupKey, h1, fun hh : ka = k => h1 hh]
      · simp [setKey, lookupKey, h1, h2, ih]

/-- The `attributesSet` accumulation resolves each key to the value of
its last occurrence in the attribute array. -/
theorem lookupKey_build (l : List AttrRecord) (m : List (String × String)) (c : String) :
    lookupKey (l.foldl (fun m a => setKey m a.attributeCode a.value) m) c =
      match lastAttrValue l c with
      | some v => some v
      | none => lookupKey m c := by
  induction l generalizing m with
  | nil => simp [lastAttrValue]
  | cons a l ih =>
    simp only [List.foldl_cons, lastAttrValue]
    rw [ih]
    cases hl : lastAttrValue l c with
    | some v => simp
    | none =>
      rw [lookupKey_setKey]
      by_cases h : a.attributeCode = c
      · simp [h]
      · simp [h, Ne.symm h]

/-- C6 counterexample: when `custom_attributes` is absent the default
`[]` still takes the array branch, so `convertAttributesSet` adds an
empty flat object instead of returning the data unchanged. -/
theorem convertAttributesSet_absent_counterexample :
    convertAttributesSet { customAttributes := none, rest := "categoryFields" } =
      { customAttributes := some (.objVal []), rest := "categoryFields" } ∧
    convertAttributesSet { customAttributes := none, rest := "categoryFields" } ≠
      { customAttributes := none, rest := "categoryFields" } := by decide

/-- C6 (amended): when `custom_attributes` is an array of
attribute-code/value records it is replaced by the flat object mapping
each code to the value of its last record; when it is absent an empty
flat object is installed; when it is present but not an array the data
is returned unchanged. -/
theorem convertAttributesSet_spec (d : RespData) :
    (∀ l, d.customAttributes = some (.arrVal l) →
      convertAttributesSet d =
        { d with customAttributes := some (.objVal (buildAttributesSet l)) } ∧
      ∀ c, lookupKey (buildAttributesSet l) c = lastAttrValue l c) ∧
    (d.customAttributes = none →
      convertAttributesSet d = { d with customAttributes := some (.objVal []) }) ∧
    (∀ o, d.customAttributes = some (.objVal o) → convertAttributesSet d = d) ∧
    (∀ v, d.customAttributes = some (.scalarVal v) → convertAttributesSet d = d) := by
  refine ⟨?_, ?_, ?_, ?_⟩
  · intro l h
    refine ⟨by simp [convertAttributesSet, h], ?_⟩
    intro c
    have hb := lookupKey_build l [] c
    cases hl : lastAttrValue l c <;>
      simp [hl, buildAttributesSet, lookupKey] at hb ⊢ <;> exact hb
  · intro h; simp [convertAttributesSet, h, buildAttributesSet]
  · intro o h; simp [convertAttributesSet, h]
  · intro v h; simp [convertAttributesSet, h]

/-- Witness for `convertAttributesSet_spec`: a two-record array is
flattened, an already-flat object is left alone. -/
theorem convertAttributesSet_spec_witness :
    convertAttributesSet
        { customAttributes := some (.arrVal [⟨"url_key", "shirt"⟩, ⟨"price_type", "1"⟩]),
          rest := "product" } =
      { customAttributes := some (.objVal
          (buildAttributesSet [⟨"url_key", "shirt"⟩, ⟨"price_type", "1"⟩])),
        rest := "product" } ∧
    convertAttributesSet { customAttributes := some (.objVal [("a", "b")]), rest := "r" } =
      { customAttributes := some (.objVal [("a", "b")]), rest := "r" } :=
  ⟨((convertAttributesSet_spec _).1 _ rfl).1,
   (convertAttributesSet_spec _).2.2.1 _ rfl⟩

/-- A found index points at an element satisfying the predicate. -/
theorem findIndexJs_getIdx (p : α → Bool) :
    ∀ (l : List α) (i : Nat), findIndexJs p l = some i →
      ∃ a, getIdx? l i = some a ∧ p a = true := by
  intro l
  induction l with
  | nil => intro i h; simp [findIndexJs] at h
  | cons a l ih =>
    intro i h
    by_cases hp : p a = true
    · simp [findIndexJs, hp] at h
      exact ⟨a, by simp [← h, getIdx?], hp⟩
    · simp [findIndexJs, hp] at h
      cases hf : findIndexJs p l with
      | none => rw [hf] at h; simp at h
      | some j =>
        rw [hf] at h
        simp at h
        obtain ⟨b, hb, hpb⟩ := ih j hf
        exact ⟨b, by rw [← h]; simpa [getIdx?] using hb, hpb⟩

/-- A found index is within bounds of the element lookup. -/
theorem getIdx?_lt : ∀ (l : List α) (i : Nat) (a : α), getIdx? l i = some a → i < l.length := by
  intro l
  induction l with
  | nil => intro i a h; simp [getIdx?] at h
  | cons x l ih =>
    intro i a h
    cases i with
    | zero => simp only [List.length_cons]; omega
    | succ j =>
      have hj := ih j a (by simpa [getIdx?] using h)
      simp only [List.length_cons]
      omega

/-- Removing one element shortens the list by one. -/
theorem eraseAt_length : ∀ (l : List α) (i : Nat), i < l.length →
    (eraseAt l i).length = l.length - 1 := by
  intro l
  induction l with
  | nil => intro i h; simp at h
  | cons x l ih =>
    intro i h
    cases i with
    | zero => simp [eraseAt]
    | succ j =>
      have hj : j < l.length := by simpa using h
      simp [eraseAt, ih j hj]
      omega

/-- C3 counterexample: when the discount segment is the only segment,
`convertTotals` leaves the singleton list unchanged, so the discount
segment sits at index 0, not at index 1 - `splice(1, 0, seg)` on the
emptied list clamps the insertion position. -/
theorem convertTotals_singleton_counterexample :
    convertTotals { totalSegments := some [segDiscount] } =
      { totalSegments := some [segDiscount] } ∧
    getIdx? [segDiscount] 1 ≠ some segDiscount := by decide

/-- C3 (amended): when `totalSegments` contains a segment with code
'discount', the first such segment is spliced out and reinserted at
position `min 1 (remaining length)` - index 1 whenever at least one
other segment exists, index 0 (the list unchanged) when the discount is
the only segment - and the relative order of all other segments is kept
(the result is exactly head-of-rest, discount, rest); with no discount
segment, or no `totalSegments` at all, the response is unchanged. -/
theorem convertTotals_spec (t : TotalsResp) :
    (t.totalSegments = none → convertTotals t = t) ∧
    (∀ segs, t.totalSegments = some segs →
      findIndexJs (fun seg => seg.code == "discount") segs = none → convertTotals t = t) ∧
    (∀ segs i d, t.totalSegments = some segs →
      findIndexJs (fun seg => seg.code == "discount") segs = some i →
      getIdx? segs i = some d →
      convertTotals t =
        { t with totalSegments := some (spliceInsert (eraseAt segs i) 1 d) } ∧
      d.code = "discount" ∧
      (2 ≤ segs.length → getIdx? (spliceInsert (eraseAt segs i) 1 d) 1 = some d)) := by
  refine ⟨?_, ?_, ?_⟩
  · intro h; simp [convertTotals, h]
  · intro segs h hf; simp [convertTotals, h, hf]
  · intro segs i d h hf hg
    refine ⟨by simp [convertTotals, h, hf, hg], ?_, ?_⟩
    · obtain ⟨a, ha, hpa⟩ := findIndexJs_getIdx _ segs i hf
      rw [hg] at ha
      cases ha
      simpa using hpa
    · intro hlen
      have hi : i < segs.length := getIdx?_lt segs i d hg
      have herase : (eraseAt segs i).length = segs.length - 1 := eraseAt_length segs i hi
      cases he : eraseAt segs i with
      | nil => rw [he] at herase; simp at herase; omega
      | cons x xs => simp [spliceInsert, getIdx?]

/-- Witness for `convertTotals_spec`: with three segments and the
discount last, the discount moves to index 1. -/
theorem convertTotals_spec_witness :
    convertTotals { totalSegments := some [segSubtotal, segGrand, segDiscount] } =
      { totalSegments :=
          some (spliceInsert (eraseAt [segSubtotal, segGrand, segDiscount] 2) 1 segDiscount) } ∧
    segDiscount.code = "discount" ∧
    getIdx? (spliceInsert (eraseAt [segSubtotal, segGrand, segDiscount] 2) 1 segDiscount) 1 =
      some segDiscount := by
  have h := (convertTotals_spec _).2.2 [segSubtotal, segGrand, segDiscount] 2 segDiscount rfl
    (by decide) (by decide)
  exact ⟨h.1, h.2.1, h.2.2 (by decide)⟩

/-- C8: the `cart` resolver never throws; without a truthy cart quote id
in the session it returns the empty cart with the session untouched and
without consulting the backend (the result does not depend on `fetch`
at all), and when either fetch rejects - or the merge itself throws -
it removes the session cart data and returns the same empty cart. -/
theorem cartOp_spec (lib : ExtLibs) (s : Session)
    (f : Except Unit (QuoteData × TotalsData)) :
    (truthyStr (sessionQuoteId s) = false → cartOp lib s f = (s, emptyCart)) ∧
    (truthyStr (sessionQuoteId s) = true → f = .error () →
      cartOp lib s f = (removeCartData s, emptyCart)) ∧
    (∀ q t, truthyStr (sessionQuoteId s) = true → f = .ok (q, t) →
      convertCartData lib q t = none → cartOp lib s f = (removeCartData s, emptyCart)) ∧
    (∀ q t c, truthyStr (sessionQuoteId s) = true → f = .ok (q, t) →
      convertCartData lib q t = some c → cartOp lib s f = (s, c)) := by
  refine ⟨?_, ?_, ?_, ?_⟩
  · intro h; simp [cartOp, h]
  · intro h hf; simp [cartOp, h, hf]
  · intro q t h hf hc; simp [cartOp, h, hf, hc]
  · intro q t c h hf hc; simp [cartOp, h, hf, hc]

/-- C10 counterexample: `ensureCart` is not idempotent when the backend
hands back a falsy quote id - the stored cart then fails the truthiness
check and a second run posts again, changing the session and the
counter. -/
theorem ensureCart_not_idempotent_counterexample :
    (ensureCart badStream (ensureCart badStream baseSession 0).session
        (ensureCart badStream baseSession 0).counter).session ≠
      (ensureCart badStream baseSession 0).session ∧
    (ensureCart badStream (ensureCart badStream baseSession 0).session
        (ensureCart badStream baseSession 0).counter).counter ≠
      (ensureCart badStream baseSession 0).counter := by decide

/-- C10 (amended): when the session cart holds a truthy quote id,
`ensureCart` returns it with no session change and no backend call;
otherwise it creates a cart at `/carts/mine` when a customer token is
present and at `/guest-carts` otherwise, storing `{ quoteId }`; and
provided the backend only returns truthy quote ids, running `ensureCart`
twice gives the same session, counter and result as running it once,
the second run making no backend call. -/
theorem ensureCart_idempotent (b : Nat → String) (s : Session) (n : Nat)
    (hb : ∀ k, b k ≠ "") :
    (∀ c, s.cart = some c → truthyStr c.quoteId = true →
      ensureCart b s n = ⟨s, n, c, none⟩) ∧
    (truthyStr (sessionQuoteId s) = false →
      ensureCart b s n =
        ⟨{ s with cart := some ⟨b n⟩ }, n + 1, ⟨b n⟩,
          some (if truthyStr (sessionTokenStr s) then "/carts/mine" else "/guest-carts")⟩) ∧
    ensureCart b (ensureCart b s n).session (ensureCart b s n).counter =
      ⟨(ensureCart b s n).session, (ensureCart b s n).counter,
       (ensureCart b s n).cart, none⟩ := by
  have htr : ∀ k, truthyStr (b k) = true := by
    intro k
    simp [truthyStr, hb k]
  refine ⟨?_, ?_, ?_⟩
  · intro c hc ht; simp [ensureCart, hc, ht]
  · intro h
    cases hc : s.cart with
    | none => simp [ensureCart, ensureCartCreate, hc]
    | some c =>
      have ht : truthyStr c.quoteId = false := by
        simpa [sessionQuoteId, hc] using h
      simp [ensureCart, ensureCartCreate, hc, ht]
  · cases hc : s.cart with
    | none =>
      simp [ensureCart, ensureCartCreate, hc, htr n]
    | some c =>
      by_cases ht : truthyStr c.quoteId = true
      · simp [ensureCart, hc, ht]
      · have ht' : truthyStr c.quoteId = false := by
          cases hq : truthyStr c.quoteId
          · rfl
          · exact absurd hq ht
        simp [ensureCart, ensureCartCreate, hc, ht', htr n]

/-- Witness for `ensureCart_idempotent`: a guest session gains a cart on
the first run and the second run returns it without a backend call. -/
theorem ensureCart_idempotent_witness :
    ensureCart (fun _ => "Q7") baseSession 0 =
      ⟨{ baseSession with cart := some ⟨"Q7"⟩ }, 1, ⟨"Q7"⟩, some "/guest-carts"⟩ ∧
    ensureCart (fun _ => "Q7") sessionWithCartQ1 3 = ⟨sessionWithCartQ1, 3, ⟨"Q1"⟩, none⟩ ∧
    ensureCart (fun _ => "Q7") (ensureCart (fun _ => "Q7") baseSession 0).session
        (ensureCart (fun _ => "Q7") baseSession 0).counter =
      ⟨(ensureCart (fun _ => "Q7") baseSession 0).session,
       (ensureCart (fun _ => "Q7") baseSession 0).counter,
       (ensureCart (fun _ => "Q7") baseSession 0).cart, none⟩ := by
  have hb : ∀ k : Nat, (fun _ : Nat => "Q7") k ≠ "" := fun k => by
    show "Q7" ≠ ""
    decide
  have h := ensureCart_idempotent (fun _ => "Q7") baseSession 0 hb
  have h2 := ensureCart_idempotent (fun _ => "Q7") sessionWithCartQ1 3 hb
  exact ⟨(h.2.1 (by decide)).trans (by decide), h2.1 ⟨"Q1"⟩ rfl (by decide), h.2.2⟩

/-- C2 counterexample: with a present but zero catalogDisplayPrice the
claim's effective price is 0 and a minPrice of 3 is present, yet the
code's `catalogPrice || data.price` falls back to the plain price 5, the
zero-price repair does not fire, and the returned price is 5, not 3. -/
theorem convertProductData_price_counterexample :
    specEffectivePrice productC2 = 0 ∧
    productC2.extensionAttributes.minPrice = some 3 ∧
    (convertProductData idLibs none productC2).price = 5 := by decide

/-- C2 (amended): when the effective price `catalogPrice || data.price`
(so catalogDisplayPrice is used only when present and nonzero) is 0 and
a nonzero minPrice extension attribute is present, the returned
product's price equals that minPrice. -/
theorem convertProductData_price_spec (lib : ExtLibs) (cur : Option String)
    (d : ProductData) (m : Int) (hm : d.extensionAttributes.minPrice = some m)
    (hm0 : m ≠ 0) (hz : jsOrInt d.extensionAttributes.catalogDisplayPrice d.price = 0) :
    (convertProductData lib cur d).price = m := by
  obtain ⟨nm, pr, pa, cu, up, pt, mp, xp, bc, th, st, de, se, ea, ca⟩ := d
  obtain ⟨cdp, ebc, etu, esi, emp, exp⟩ := ea
  simp only at hm hz
  subst hm
  unfold convertProductData
  simp only [ProductExtAttrs.isEmptyAttrs, Option.isNone_some, Bool.and_false,
    Bool.false_and, if_false, Bool.false_eq_true, hz, hm0, if_true]
  cases ebc <;> cases exp <;> cases esi <;>
    simp [hm0, hz] <;>
    repeat (first | rfl | (split <;> simp_all))

/-- Witness for `convertProductData_price_spec`: a zero price with
minPrice 3 is repaired to 3. -/
theorem convertProductData_price_spec_witness :
    (convertProductData idLibs none productMinRepair).price = 3 :=
  convertProductData_price_spec idLibs none productMinRepair 3 (by decide) (by decide)
    (by decide)

/-- Witness for `cartOp_spec`: the quote-less session, a rejected fetch,
a merge failure and a successful merge, each at concrete data. -/
theorem cartOp_spec_witness :
    cartOp idLibs baseSession (.error ()) = (baseSession, emptyCart) ∧
    cartOp idLibs sessionWithCartQ1 (.error ()) =
      (removeCartData sessionWithCartQ1, emptyCart) ∧
    cartOp idLibs sessionWithCartQ1 (.ok (qOne, tEmpty)) =
      (removeCartData sessionWithCartQ1, emptyCart) ∧
    cartOp idLibs sessionWithCartQ1 (.ok (qOne, tOne)) = (sessionWithCartQ1, cartOne) :=
  ⟨(cartOp_spec idLibs baseSession (.error ())).1 (by decide),
   (cartOp_spec idLibs sessionWithCartQ1 (.error ())).2.1 (by decide) rfl,
   (cartOp_spec idLibs sessionWithCartQ1 _).2.2.1 qOne tEmpty (by decide) rfl (by decide),
   (cartOp_spec idLibs sessionWithCartQ1 _).2.2.2 qOne tOne cartOne (by decide) rfl (by decide)⟩
